import Mathlib

/-!
Verification of the taprio qdisc netlink attribute codec
(`src/tc/qdiscs/taprio.rs`).

Byte sequences are modelled as `List Nat` (each element one octet).  The
generic netlink-attribute (NLA) machinery used by the codec lives in the
external `netlink-packet-utils` crate; those pieces are modelled from the
specification's description of the attribute capability (spec sections 3,
4.1, 4.2 and 6) and are marked as such in their doc comments.  Everything
else is translated directly from `taprio.rs`.
-/

namespace Taprio

/-- Modelled from the spec: the reserved high bit of an attribute's 16-bit
kind code marking a nested/container value (bit 15, 0x8000). -/
def NLA_F_NESTED : Nat := 32768

/-- Modelled from the spec: the network-byte-order flag bit of an
attribute's kind code (bit 14, 0x4000), the other reserved flag bit of the
generic attribute header. -/
def NLA_F_NET_BYTEORDER : Nat := 16384

/-- Modelled from the spec: little/native-endian encoding of a 16-bit
integer as two octets. -/
def writeU16 (n : Nat) : List Nat := [n % 256, n / 256 % 256]

/-- Modelled from the spec: little/native-endian encoding of a 32-bit
integer as four octets. -/
def writeU32 (n : Nat) : List Nat :=
  [n % 256, n / 256 % 256, n / 65536 % 256, n / 16777216 % 256]

/-- Modelled from the spec: little/native-endian encoding of a 64-bit
integer as eight octets. -/
def writeU64 (n : Nat) : List Nat :=
  writeU32 (n % 4294967296) ++ writeU32 (n / 4294967296)

/-- Modelled from the spec: little/native-endian encoding of a signed
64-bit integer (two's complement). -/
def writeI64 (d : Int) : List Nat := writeU64 (d % 18446744073709551616).toNat

/-- Modelled from the spec: read a little/native-endian 16-bit integer
from the first two octets. -/
def readU16 (l : List Nat) : Nat := l.getD 0 0 + 256 * l.getD 1 0

/-- Modelled from the spec: read a little/native-endian 32-bit integer
from the first four octets. -/
def readU32 (l : List Nat) : Nat :=
  l.getD 0 0 + 256 * l.getD 1 0 + 65536 * l.getD 2 0 + 16777216 * l.getD 3 0

/-- Modelled from the spec: read a little/native-endian 64-bit integer
from the first eight octets. -/
def readU64 (l : List Nat) : Nat := readU32 l + 4294967296 * readU32 (l.drop 4)

/-- Modelled from the spec: read a little/native-endian signed 64-bit
integer (two's complement). -/
def readI64 (l : List Nat) : Int :=
  if readU64 l < 9223372036854775808 then (readU64 l : Int)
  else (readU64 l : Int) - 18446744073709551616

/-- Modelled from the spec: 4-byte attribute alignment, the declared
length rounded up to the next multiple of 4. -/
def nlaAlign (n : Nat) : Nat := (n + 3) / 4 * 4

/-- Modelled from the spec: the `(kind, length, value)` record obtained
from an attribute buffer: the declared total length (header plus value),
the raw 16-bit kind field (flag bits included), and the length-delimited
value octets. -/
structure NlaRaw where
  length : Nat
  rawKind : Nat
  value : List Nat
deriving DecidableEq

/-- Modelled from the spec: the kind code with the two reserved flag bits
masked off, as returned by the attribute buffer's kind accessor. -/
def NlaRaw.kind (r : NlaRaw) : Nat := r.rawKind % 16384

/-- Modelled from the spec: whether the nested-flag bit of the raw kind
field is set. -/
def NlaRaw.nestedFlag (r : NlaRaw) : Bool := decide (r.rawKind / 32768 % 2 = 1)

/-- Modelled from the spec: whether the network-byte-order flag bit of the
raw kind field is set. -/
def NlaRaw.netByteorderFlag (r : NlaRaw) : Bool :=
  decide (r.rawKind / 16384 % 2 = 1)

/-- The escape attribute preserving an unrecognized kind and its raw value
octets verbatim (`DefaultNla` of `netlink-packet-utils`, modelled from the
spec's escape-variant description). -/
structure DefaultNla where
  kind : Nat
  value : List Nat
deriving DecidableEq

def DefaultNla.value_len (a : DefaultNla) : Nat := a.value.length

def DefaultNla.emit_value (a : DefaultNla) : List Nat := a.value

/-- Modelled from the spec: parsing the escape variant keeps the masked
kind code and re-applies the flag bits found on the wire, preserving the
raw kind verbatim. -/
def DefaultNla.parse (r : NlaRaw) : DefaultNla :=
  { kind := r.kind + (if r.netByteorderFlag then 16384 else 0)
      + (if r.nestedFlag then 32768 else 0),
    value := r.value }

/-- Modelled from the spec: `anyhow`-style error context, prepending a
message naming the attribute being parsed. -/
def withContext (msg : String) : Except String α → Except String α
  | .error e => .error (msg ++ ": " ++ e)
  | .ok a => .ok a

/-- Modelled from the spec: a scalar whose declared value length does not
match its expected fixed width (1 byte) fails the decode. -/
def parse_u8 (payload : List Nat) : Except String Nat :=
  if payload.length = 1 then .ok (payload.getD 0 0) else .error "invalid u8"

/-- Modelled from the spec: a scalar whose declared value length does not
match its expected fixed width (4 bytes) fails the decode. -/
def parse_u32 (payload : List Nat) : Except String Nat :=
  if payload.length = 4 then .ok (readU32 payload) else .error "invalid u32"

/-- Modelled from the spec: a scalar whose declared value length does not
match its expected fixed width (8 bytes) fails the decode. -/
def parse_i64 (payload : List Nat) : Except String Int :=
  if payload.length = 8 then .ok (readI64 payload) else .error "invalid i64"

/-- Modelled from the spec: the generic single-attribute emission, writing
the 2-byte total length (header plus value, padding excluded), the 2-byte
kind, the value octets, and zero padding up to the 4-byte boundary. -/
def nlaEmitRecord (vl k : Nat) (v : List Nat) : List Nat :=
  writeU16 (4 + vl) ++ writeU16 k ++ v
    ++ List.replicate (nlaAlign (4 + vl) - (4 + vl)) 0

/-- Modelled from the spec: concatenation of the padded records of a
sequence of attributes. -/
def nlasEmit (emit1 : α → List Nat) (l : List α) : List Nat :=
  (l.map emit1).flatten

/-- Modelled from the spec: the buffer length of a sequence of attributes,
the sum over entries of `4 + value_len` each rounded up to a multiple
of 4. -/
def nlasBufferLen (vl : α → Nat) (l : List α) : Nat :=
  (l.map (fun e => nlaAlign (4 + vl e))).sum

/-- Modelled from the spec: checked view of a single attribute record: the
buffer must hold the 4-byte header, the declared length must not exceed
the buffer and must cover at least the header; the value is the
length-delimited slice after the header. -/
def nlaBufferParse (bytes : List Nat) : Except String NlaRaw :=
  if bytes.length < 4 then .error "buffer shorter than an attribute header"
  else if bytes.length < readU16 bytes then
    .error "declared attribute length exceeds the buffer"
  else if readU16 bytes < 4 then
    .error "declared attribute length shorter than an attribute header"
  else .ok ⟨readU16 bytes, readU16 (bytes.drop 2),
    (bytes.drop 4).take (readU16 bytes - 4)⟩

theorem nlaAlign_ge (n : Nat) : n ≤ nlaAlign n := by
  unfold nlaAlign; omega

/-- Modelled from the spec: the generic list walker.  It walks the buffer,
at each position reads the 4-byte header, validates the declared length
against the remaining buffer, slices out the value, dispatches the record
to the typed parser (adding the caller's error context to any failure) and
advances past the value plus its padding. -/
def nlasFold (p1 : NlaRaw → Except String α) (err : String)
    (bytes : List Nat) : Except String (List α) :=
  if hnil : bytes = [] then .ok []
  else if h4 : bytes.length < 4 then
    .error (err ++ ": " ++ "buffer shorter than an attribute header")
  else if hover : bytes.length < readU16 bytes then
    .error (err ++ ": " ++ "declared attribute length exceeds the buffer")
  else if hshort : readU16 bytes < 4 then
    .error (err ++ ": " ++ "declared attribute length shorter than an attribute header")
  else
    match withContext err (p1 ⟨readU16 bytes, readU16 (bytes.drop 2),
        (bytes.drop 4).take (readU16 bytes - 4)⟩) with
    | .error e => .error e
    | .ok a =>
      match nlasFold p1 err (bytes.drop (nlaAlign (readU16 bytes))) with
      | .error e => .error e
      | .ok rest => .ok (a :: rest)
termination_by bytes.length
decreasing_by
  have h1 := nlaAlign_ge (readU16 bytes)
  have h2 : bytes.length ≠ 0 := fun h =>
    hnil (List.eq_nil_of_length_eq_zero h)
  simp only [List.length_drop]
  omega

/-! ### Kind-code constants (taprio.rs lines 20-28, 248-250, 327, 383-385) -/

def TCA_TAPRIO_ATTR_PRIOMAP : Nat := 1
def TCA_TAPRIO_ATTR_SCHED_ENTRY_LIST : Nat := 2
def TCA_TAPRIO_ATTR_SCHED_BASE_TIME : Nat := 3
def TCA_TAPRIO_ATTR_SCHED_CLOCKID : Nat := 5
def TCA_TAPRIO_ATTR_SCHED_CYCLE_TIME : Nat := 8
def TCA_TAPRIO_ATTR_SCHED_CYCLE_TIME_EXTENSION : Nat := 9
def TCA_TAPRIO_ATTR_FLAGS : Nat := 10
def TCA_TAPRIO_ATTR_TXTIME_DELAY : Nat := 11
def TCA_TAPRIO_ATTR_TC_ENTRY : Nat := 12

def TCA_TAPRIO_TC_ENTRY_INDEX : Nat := 1
def TCA_TAPRIO_TC_ENTRY_MAX_SDU : Nat := 2
def TCA_TAPRIO_TC_ENTRY_FP : Nat := 3

def TCA_TAPRIO_SCHED_ENTRY : Nat := 1

def TCA_TAPRIO_SCHED_ENTRY_CMD : Nat := 2
def TCA_TAPRIO_SCHED_ENTRY_GATE_MASK : Nat := 3
def TCA_TAPRIO_SCHED_ENTRY_INTERVAL : Nat := 4

/-! ### Data model (taprio.rs) -/

/-- The fixed 82-byte priority-map record (taprio.rs lines 158-166).
`num_tc` and `hw` are u8, `prio_tc_map` sixteen u8, `count` and `offset`
sixteen u16 each; the length-16 array types of the source become length
constraints in the validity predicate below. -/
structure TcPriomap where
  num_tc : Nat
  prio_tc_map : List Nat
  hw : Nat
  count : List Nat
  offset : List Nat
deriving DecidableEq

def TcPriomap.BUF_LEN : Nat := 82

/-- Per-traffic-class sub-attributes (taprio.rs lines 252-259). -/
inductive TaprioTcEntry where
  | Index (d : Nat)
  | MaxSdu (d : Nat)
  | Fp (d : Nat)
  | Other (attr : DefaultNla)
deriving DecidableEq

/-- Gate-control schedule entry items (taprio.rs lines 387-394). -/
inductive TaprioScheduleEntryItem where
  | Cmd (d : Nat)
  | GateMask (d : Nat)
  | Interval (d : Nat)
  | Other (attr : DefaultNla)
deriving DecidableEq

/-- Gate-control schedule entries (taprio.rs lines 329-334). -/
inductive TaprioScheduleEntry where
  | Entry (items : List TaprioScheduleEntryItem)
  | Other (attr : DefaultNla)
deriving DecidableEq

/-- Top-level taprio options (taprio.rs lines 30-43). -/
inductive TcQdiscTaprioOption where
  | ClockId (d : Nat)
  | Flags (d : Nat)
  | Priomap (p : TcPriomap)
  | TxtimeDelay (d : Nat)
  | Basetime (d : Int)
  | Cycletime (d : Int)
  | CycletimeExtension (d : Int)
  | Tc (nlas : List TaprioTcEntry)
  | Schedule (nlas : List TaprioScheduleEntry)
  | Other (attr : DefaultNla)
deriving DecidableEq

/-! ### Convenience constructors (taprio.rs lines 262-272, 397-403) -/

def TaprioTcEntry.fp_from_char (c : Char) : Except String TaprioTcEntry :=
  if c = 'E' then .ok (.Fp 1)
  else if c = 'P' then .ok (.Fp 2)
  else .error "Currently, only E and P are valid for FP"

def TaprioScheduleEntryItem.cmd_from_char (c : Char) :
    Except String TaprioScheduleEntryItem :=
  if c = 'S' then .ok (.Cmd 0)
  else .error "Currently, only S is valid as command"

/-! ### Nla implementation for TaprioScheduleEntryItem (taprio.rs 406-433) -/

def TaprioScheduleEntryItem.value_len : TaprioScheduleEntryItem → Nat
  | .Cmd _ => 1
  | .GateMask _ | .Interval _ => 4
  | .Other attr => attr.value_len

def TaprioScheduleEntryItem.emit_value : TaprioScheduleEntryItem → List Nat
  | .Cmd d => [d]
  | .GateMask d | .Interval d => writeU32 d
  | .Other attr => attr.emit_value

/-- The source's `emit_value` writes into a caller-supplied buffer:
`Cmd` assigns only the byte at index 0, `GateMask`/`Interval` overwrite
the first four bytes, `Other` copies its stored value over the front. -/
def TaprioScheduleEntryItem.emitValueInto :
    TaprioScheduleEntryItem → List Nat → List Nat
  | .Cmd d, buffer => buffer.set 0 d
  | .GateMask d, buffer | .Interval d, buffer =>
    writeU32 d ++ buffer.drop 4
  | .Other attr, buffer => attr.value ++ buffer.drop attr.value.length

def TaprioScheduleEntryItem.kind : TaprioScheduleEntryItem → Nat
  | .Cmd _ => TCA_TAPRIO_SCHED_ENTRY_CMD
  | .GateMask _ => TCA_TAPRIO_SCHED_ENTRY_GATE_MASK
  | .Interval _ => TCA_TAPRIO_SCHED_ENTRY_INTERVAL
  | .Other attr => attr.kind

/-- Parseable implementation for TaprioScheduleEntryItem
(taprio.rs lines 435-460). -/
def TaprioScheduleEntryItem.parse (r : NlaRaw) :
    Except String TaprioScheduleEntryItem :=
  let payload := r.value
  if r.kind = TCA_TAPRIO_SCHED_ENTRY_CMD then
    (withContext "failed to parse TCA_TAPRIO_SCHED_ENTRY_CMD"
      (parse_u8 payload)).map .Cmd
  else if r.kind = TCA_TAPRIO_SCHED_ENTRY_GATE_MASK then
    (withContext "failed to parse TCA_TAPRIO_SCHED_ENTRY_GATE_MASK"
      (parse_u32 payload)).map .GateMask
  else if r.kind = TCA_TAPRIO_SCHED_ENTRY_INTERVAL then
    (withContext "failed to parse TCA_TAPRIO_SCHED_ENTRY_INTERVAL"
      (parse_u32 payload)).map .Interval
  else .ok (.Other (DefaultNla.parse r))

/-! ### Nla implementation for TaprioScheduleEntry (taprio.rs 336-381) -/

def TaprioScheduleEntry.value_len : TaprioScheduleEntry → Nat
  | .Entry nlas => nlasBufferLen TaprioScheduleEntryItem.value_len nlas
  | .Other attr => attr.value_len

def TaprioScheduleEntryItem.emit (i : TaprioScheduleEntryItem) : List Nat :=
  nlaEmitRecord i.value_len i.kind i.emit_value

def TaprioScheduleEntry.emit_value : TaprioScheduleEntry → List Nat
  | .Entry p => nlasEmit TaprioScheduleEntryItem.emit p
  | .Other attr => attr.emit_value

def TaprioScheduleEntry.kind : TaprioScheduleEntry → Nat
  | .Entry _ => TCA_TAPRIO_SCHED_ENTRY
  | .Other attr => attr.kind

def TaprioScheduleEntry.parse (r : NlaRaw) :
    Except String TaprioScheduleEntry :=
  let payload := r.value
  if r.kind = TCA_TAPRIO_SCHED_ENTRY then
    (nlasFold TaprioScheduleEntryItem.parse
      "failed to parse TCA_TAPRIO_SCHED_ENTRY" payload).map .Entry
  else .ok (.Other (DefaultNla.parse r))

/-! ### Nla implementation for TaprioTcEntry (taprio.rs 275-325) -/

def TaprioTcEntry.value_len : TaprioTcEntry → Nat
  | .Index _ | .MaxSdu _ | .Fp _ => 4
  | .Other attr => attr.value_len

def TaprioTcEntry.emit_value : TaprioTcEntry → List Nat
  | .Index d | .MaxSdu d | .Fp d => writeU32 d
  | .Other attr => attr.emit_value

def TaprioTcEntry.kind : TaprioTcEntry → Nat
  | .Index _ => TCA_TAPRIO_TC_ENTRY_INDEX
  | .MaxSdu _ => TCA_TAPRIO_TC_ENTRY_MAX_SDU
  | .Fp _ => TCA_TAPRIO_TC_ENTRY_FP
  | .Other attr => attr.kind

def TaprioTcEntry.emit (e : TaprioTcEntry) : List Nat :=
  nlaEmitRecord e.value_len e.kind e.emit_value

def TaprioTcEntry.parse (r : NlaRaw) : Except String TaprioTcEntry :=
  let payload := r.value
  if r.kind = TCA_TAPRIO_TC_ENTRY_INDEX then
    (withContext "failed to parse TCA_TAPRIO_TC_ENTRY_INDEX"
      (parse_u32 payload)).map .Index
  else if r.kind = TCA_TAPRIO_TC_ENTRY_MAX_SDU then
    (withContext "failed to parse TCA_TAPRIO_TC_ENTRY_MAX_SDU"
      (parse_u32 payload)).map .MaxSdu
  else if r.kind = TCA_TAPRIO_TC_ENTRY_FP then
    (withContext "failed to parse TCA_TAPRIO_TC_ENTRY_FP"
      (parse_u32 payload)).map .Fp
  else .ok (.Other (DefaultNla.parse r))

/-! ### Priomap buffer and codec (taprio.rs 168-246) -/

/-- Modelled from the spec: the `buffer!`-generated checked constructor of
`TcPriomapBuffer`, a single bounds check at decode entry rejecting buffers
shorter than the 82-byte fixed size (spec sections 3 and 9). -/
def TcPriomapBuffer.new_checked (payload : List Nat) :
    Except String (List Nat) :=
  if payload.length < TcPriomap.BUF_LEN then
    .error "buffer shorter than the 82-byte priomap record"
  else .ok payload

/-- Modelled from the spec: `buffer!` field accessor, u8 at offset 0. -/
def TcPriomapBuffer.num_tc (b : List Nat) : Nat := b.getD 0 0

/-- Modelled from the spec: `buffer!` field accessor, slice 1..17. -/
def TcPriomapBuffer.prio_tc_map (b : List Nat) : List Nat :=
  (b.drop 1).take 16

/-- Modelled from the spec: `buffer!` field accessor, u8 at offset 17. -/
def TcPriomapBuffer.hw (b : List Nat) : Nat := (b.drop 17).getD 0 0

/-- Modelled from the spec: `buffer!` field accessor, slice 18..50. -/
def TcPriomapBuffer.count (b : List Nat) : List Nat := (b.drop 18).take 32

/-- Modelled from the spec: `buffer!` field accessor, slice 50..82. -/
def TcPriomapBuffer.offset (b : List Nat) : List Nat := (b.drop 50).take 32

/-- Reading a slice two octets at a time as u16 values, the
`chunks_exact(2)` loops of the priomap codec. -/
def readU16List : List Nat → List Nat
  | a :: b :: rest => (a + 256 * b) :: readU16List rest
  | _ => []

def TcPriomap.emit (p : TcPriomap) : List Nat :=
  [p.num_tc] ++ p.prio_tc_map ++ [p.hw]
    ++ p.count.flatMap writeU16 ++ p.offset.flatMap writeU16

def TcPriomap.buffer_len (_ : TcPriomap) : Nat := TcPriomap.BUF_LEN

/-- Parseable implementation for TcPriomap (taprio.rs lines 219-246),
applied to a buffer already accepted by `TcPriomapBuffer.new_checked`. -/
def TcPriomap.parse (b : List Nat) : Except String TcPriomap :=
  let count := readU16List (TcPriomapBuffer.count b)
  let offset := readU16List (TcPriomapBuffer.offset b)
  if (TcPriomapBuffer.prio_tc_map b).length = 16 then
    .ok ⟨TcPriomapBuffer.num_tc b, TcPriomapBuffer.prio_tc_map b,
      TcPriomapBuffer.hw b, count, offset⟩
  else .error "Invalid length of prio_tc_map"

/-- The priomap decode path of the option parser:
`TcPriomap::parse(&TcPriomapBuffer::new_checked(payload)?)?`
(taprio.rs lines 110-112). -/
def TcPriomap.parseChecked (payload : List Nat) : Except String TcPriomap :=
  match TcPriomapBuffer.new_checked payload with
  | .error e => .error e
  | .ok b => TcPriomap.parse b

/-! ### Nla implementation for TcQdiscTaprioOption (taprio.rs 45-156) -/

def TcQdiscTaprioOption.value_len : TcQdiscTaprioOption → Nat
  | .ClockId _ | .Flags _ | .TxtimeDelay _ => 4
  | .Basetime _ | .Cycletime _ | .CycletimeExtension _ => 8
  | .Priomap v => v.buffer_len
  | .Tc nlas => nlasBufferLen TaprioTcEntry.value_len nlas
  | .Schedule nlas => nlasBufferLen TaprioScheduleEntry.value_len nlas
  | .Other attr => attr.value_len

def TaprioScheduleEntry.emit (e : TaprioScheduleEntry) : List Nat :=
  nlaEmitRecord e.value_len e.kind e.emit_value

def TcQdiscTaprioOption.emit_value : TcQdiscTaprioOption → List Nat
  | .ClockId d | .Flags d | .TxtimeDelay d => writeU32 d
  | .Basetime d | .Cycletime d | .CycletimeExtension d => writeI64 d
  | .Priomap p => p.emit
  | .Tc nlas => nlasEmit TaprioTcEntry.emit nlas
  | .Schedule nlas => nlasEmit TaprioScheduleEntry.emit nlas
  | .Other attr => attr.emit_value

def TcQdiscTaprioOption.kind : TcQdiscTaprioOption → Nat
  | .ClockId _ => TCA_TAPRIO_ATTR_SCHED_CLOCKID
  | .Flags _ => TCA_TAPRIO_ATTR_FLAGS
  | .Priomap _ => TCA_TAPRIO_ATTR_PRIOMAP
  | .TxtimeDelay _ => TCA_TAPRIO_ATTR_TXTIME_DELAY
  | .Basetime _ => TCA_TAPRIO_ATTR_SCHED_BASE_TIME
  | .Cycletime _ => TCA_TAPRIO_ATTR_SCHED_CYCLE_TIME
  | .CycletimeExtension _ => TCA_TAPRIO_ATTR_SCHED_CYCLE_TIME_EXTENSION
  | .Tc _ => TCA_TAPRIO_ATTR_TC_ENTRY + NLA_F_NESTED
  | .Schedule _ => TCA_TAPRIO_ATTR_SCHED_ENTRY_LIST + NLA_F_NESTED
  | .Other attr => attr.kind

def TcQdiscTaprioOption.emit (v : TcQdiscTaprioOption) : List Nat :=
  nlaEmitRecord v.value_len v.kind v.emit_value

/-- Parseable implementation for TcQdiscTaprioOption
(taprio.rs lines 96-156). -/
def TcQdiscTaprioOption.parse (r : NlaRaw) :
    Except String TcQdiscTaprioOption :=
  let payload := r.value
  if r.kind = TCA_TAPRIO_ATTR_SCHED_CLOCKID then
    (withContext "failed to parse TCA_TAPRIO_ATTR_SCHED_CLOCKID"
      (parse_u32 payload)).map .ClockId
  else if r.kind = TCA_TAPRIO_ATTR_FLAGS then
    (withContext "failed to parse TCA_TAPRIO_ATTR_SCHED_FLAGS"
      (parse_u32 payload)).map .Flags
  else if r.kind = TCA_TAPRIO_ATTR_PRIOMAP then
    (TcPriomap.parseChecked payload).map .Priomap
  else if r.kind = TCA_TAPRIO_ATTR_TXTIME_DELAY then
    (withContext "failed to parse TCA_TAPRIO_ATTR_TXTIME_DELAY"
      (parse_u32 payload)).map .TxtimeDelay
  else if r.kind = TCA_TAPRIO_ATTR_SCHED_BASE_TIME then
    (withContext "failed to parse TCA_TAPRIO_ATTR_SCHED_BASE_TIME"
      (parse_i64 payload)).map .Basetime
  else if r.kind = TCA_TAPRIO_ATTR_SCHED_CYCLE_TIME then
    (withContext "failed to parse TCA_TAPRIO_ATTR_SCHED_CYCLE_TIME"
      (parse_i64 payload)).map .Cycletime
  else if r.kind = TCA_TAPRIO_ATTR_SCHED_CYCLE_TIME_EXTENSION then
    (withContext "failed to parse TCA_TAPRIO_ATTR_SCHED_CYCLE_TIME_EXTENSION"
      (parse_i64 payload)).map .CycletimeExtension
  else if r.kind = TCA_TAPRIO_ATTR_TC_ENTRY then
    (nlasFold TaprioTcEntry.parse
      "failed to parse TCA_TAPRIO_ATTR_TC_ENTRY" payload).map .Tc
  else if r.kind = TCA_TAPRIO_ATTR_SCHED_ENTRY_LIST then
    (nlasFold TaprioScheduleEntry.parse
      "failed to parse TCA_TAPRIO_ATTR_SCHED_ENTRY_LIST" payload).map .Schedule
  else .ok (.Other (DefaultNla.parse r))

/-- Parsing one attribute record from raw bytes: the checked buffer view
followed by the typed parser, as the surrounding option-list walker does
for each record. -/
def TcQdiscTaprioOption.parseFromBytes (bytes : List Nat) :
    Except String TcQdiscTaprioOption :=
  match nlaBufferParse bytes with
  | .error e => .error e
  | .ok r => TcQdiscTaprioOption.parse r

/-! ### Validity of typed values

A typed value is valid when its numeric fields fit their machine-integer
types (u8/u16/u32/i64 of the source), its fixed arrays have the length the
source's array types give them, every record's declared length fits the
16-bit length field, and an escape variant does not masquerade as a
recognized kind (the decoder never produces such an escape value). -/

def recognizedTopKinds : List Nat := [1, 2, 3, 5, 8, 9, 10, 11, 12]

def recognizedTcEntryKinds : List Nat := [1, 2, 3]

def recognizedScheduleEntryKinds : List Nat := [1]

def recognizedScheduleEntryItemKinds : List Nat := [2, 3, 4]

def DefaultNla.validAgainst (a : DefaultNla) (recognized : List Nat) : Bool :=
  decide (a.kind < 65536) && decide (4 + a.value.length < 65536)
    && !(recognized.contains (a.kind % 16384))

def TaprioScheduleEntryItem.valid : TaprioScheduleEntryItem → Bool
  | .Cmd d => decide (d < 256)
  | .GateMask d | .Interval d => decide (d < 4294967296)
  | .Other attr => attr.validAgainst recognizedScheduleEntryItemKinds

def TaprioScheduleEntry.valid : TaprioScheduleEntry → Bool
  | .Entry nlas => nlas.all TaprioScheduleEntryItem.valid
      && decide (4 + nlasBufferLen TaprioScheduleEntryItem.value_len nlas < 65536)
  | .Other attr => attr.validAgainst recognizedScheduleEntryKinds

def TaprioTcEntry.valid : TaprioTcEntry → Bool
  | .Index d | .MaxSdu d | .Fp d => decide (d < 4294967296)
  | .Other attr => attr.validAgainst recognizedTcEntryKinds

def TcPriomap.valid (p : TcPriomap) : Bool :=
  decide (p.num_tc < 256) && decide (p.hw < 256)
    && decide (p.prio_tc_map.length = 16)
    && p.prio_tc_map.all (fun b => decide (b < 256))
    && decide (p.count.length = 16)
    && p.count.all (fun c => decide (c < 65536))
    && decide (p.offset.length = 16)
    && p.offset.all (fun c => decide (c < 65536))

def TcQdiscTaprioOption.valid : TcQdiscTaprioOption → Bool
  | .ClockId d | .Flags d | .TxtimeDelay d => decide (d < 4294967296)
  | .Basetime d | .Cycletime d | .CycletimeExtension d =>
    decide (-9223372036854775808 ≤ d) && decide (d < 9223372036854775808)
  | .Priomap p => p.valid
  | .Tc nlas => nlas.all TaprioTcEntry.valid
      && decide (4 + nlasBufferLen TaprioTcEntry.value_len nlas < 65536)
  | .Schedule nlas => nlas.all TaprioScheduleEntry.valid
      && decide (4 + nlasBufferLen TaprioScheduleEntry.value_len nlas < 65536)
  | .Other attr => attr.validAgainst recognizedTopKinds

/-! ### Basic byte-level lemmas -/

theorem readU16_writeU16 (n : Nat) (rest : List Nat) :
    readU16 (writeU16 n ++ rest) = n % 65536 := by
  simp [readU16, writeU16, List.getD]
  omega

theorem writeU16_length (n : Nat) : (writeU16 n).length = 2 := rfl

theorem writeU32_length (n : Nat) : (writeU32 n).length = 4 := rfl

theorem writeU64_length (n : Nat) : (writeU64 n).length = 8 := rfl

theorem writeI64_length (d : Int) : (writeI64 d).length = 8 := rfl

theorem readU32_writeU32 (n : Nat) (rest : List Nat) :
    readU32 (writeU32 n ++ rest) = n % 4294967296 := by
  simp [readU32, writeU32, List.getD]
  omega

theorem readU32_writeU32' (n : Nat) : readU32 (writeU32 n) = n % 4294967296 := by
  have := readU32_writeU32 n []
  simpa using this

theorem writeU32_drop4 (n : Nat) (rest : List Nat) :
    (writeU32 n ++ rest).drop 4 = rest := rfl

theorem readU64_writeU64 (n : Nat) (rest : List Nat) :
    readU64 (writeU64 n ++ rest) = n % 18446744073709551616 := by
  unfold readU64 writeU64
  rw [List.append_assoc, readU32_writeU32, writeU32_drop4, readU32_writeU32]
  omega

theorem readI64_writeI64 (d : Int) (rest : List Nat)
    (h1 : -9223372036854775808 ≤ d) (h2 : d < 9223372036854775808) :
    readI64 (writeI64 d ++ rest) = d := by
  unfold readI64 writeI64
  rw [readU64_writeU64]
  have hm : (0:Int) ≤ d % 18446744073709551616 := Int.emod_nonneg _ (by norm_num)
  have hlt : d % 18446744073709551616 < 18446744073709551616 :=
    Int.emod_lt_of_pos _ (by norm_num)
  have hsmall : (d % 18446744073709551616).toNat % 18446744073709551616
      = (d % 18446744073709551616).toNat := by
    apply Nat.mod_eq_of_lt
    omega
  rw [hsmall]
  split <;> omega

theorem nlaEmitRecord_length (vl k : Nat) (v : List Nat) (hv : v.length = vl) :
    (nlaEmitRecord vl k v).length = nlaAlign (4 + vl) := by
  have := nlaAlign_ge (4 + vl)
  simp [nlaEmitRecord, writeU16, hv]
  omega

theorem take_append_eq_left (n : Nat) (l₁ l₂ : List α) (h : l₁.length = n) :
    (l₁ ++ l₂).take n = l₁ := by subst h; simp

theorem drop_append_eq_right (n : Nat) (l₁ l₂ : List α) (h : l₁.length = n) :
    (l₁ ++ l₂).drop n = l₂ := by subst h; simp

theorem nlaEmitRecord_decomp (vl k : Nat) (v rest : List Nat) :
    nlaEmitRecord vl k v ++ rest
      = (4 + vl) % 256 :: ((4 + vl) / 256 % 256) :: (k % 256)
        :: (k / 256 % 256)
        :: (v ++ (List.replicate (nlaAlign (4 + vl) - (4 + vl)) 0 ++ rest)) := by
  simp [nlaEmitRecord, writeU16, List.append_assoc]

theorem readU16_cons4 (a b c d : Nat) (t : List Nat) :
    readU16 (a :: b :: c :: d :: t) = a + 256 * b := by
  simp [readU16]

theorem readU16_cons4_drop2 (a b c d : Nat) (t : List Nat) :
    readU16 ((a :: b :: c :: d :: t).drop 2) = c + 256 * d := by
  simp [readU16]

/-- On the bytes of an emitted record followed by anything, the checked
buffer view returns exactly the record's length, kind and value. -/
theorem nlaBufferParse_emitRecord (vl k : Nat) (v rest : List Nat)
    (hv : v.length = vl) (hk : k < 65536) (hlen : 4 + vl < 65536) :
    nlaBufferParse (nlaEmitRecord vl k v ++ rest) = .ok ⟨4 + vl, k, v⟩ := by
  rw [nlaEmitRecord_decomp]
  unfold nlaBufferParse
  rw [readU16_cons4]
  have e1 : (4 + vl) % 256 + 256 * ((4 + vl) / 256 % 256) = 4 + vl := by omega
  rw [e1]
  have hlength : ((4 + vl) % 256 :: ((4 + vl) / 256 % 256) :: (k % 256)
      :: (k / 256 % 256)
      :: (v ++ (List.replicate (nlaAlign (4 + vl) - (4 + vl)) 0 ++ rest))).length
      = 4 + (vl + ((nlaAlign (4 + vl) - (4 + vl)) + rest.length)) := by
    simp [hv]
    omega
  rw [if_neg (by rw [hlength]; omega), if_neg (by rw [hlength]; omega),
    if_neg (by omega)]
  rw [readU16_cons4_drop2]
  have e2 : k % 256 + 256 * (k / 256 % 256) = k := by omega
  rw [e2]
  have e3 : 4 + vl - 4 = vl := by omega
  simp only [List.drop_succ_cons, List.drop_zero, e3]
  rw [take_append_eq_left vl v _ hv]

/-- The generic list walker on an empty buffer yields the empty list. -/
theorem nlasFold_nil (p1 : NlaRaw → Except String α) (err : String) :
    nlasFold p1 err [] = .ok [] := by
  rw [nlasFold]
  simp

/-- The generic list walker on the bytes of an emitted record followed by
further bytes parses the record, then continues on the remaining bytes. -/
theorem nlasFold_record (p1 : NlaRaw → Except String α) (err : String)
    (vl k : Nat) (v rest : List Nat) (a : α)
    (hv : v.length = vl) (hk : k < 65536) (hlen : 4 + vl < 65536)
    (hp : p1 ⟨4 + vl, k, v⟩ = .ok a) :
    nlasFold p1 err (nlaEmitRecord vl k v ++ rest)
      = (nlasFold p1 err rest).map (fun l => a :: l) := by
  have hdrop : (nlaEmitRecord vl k v ++ rest).drop (nlaAlign (4 + vl))
      = rest :=
    drop_append_eq_right _ _ _ (nlaEmitRecord_length vl k v hv)
  rw [nlasFold]
  rw [nlaEmitRecord_decomp] at hdrop ⊢
  rw [dif_neg (by simp)]
  have hlength : ((4 + vl) % 256 :: ((4 + vl) / 256 % 256) :: (k % 256)
      :: (k / 256 % 256)
      :: (v ++ (List.replicate (nlaAlign (4 + vl) - (4 + vl)) 0 ++ rest))).length
      = 4 + (vl + ((nlaAlign (4 + vl) - (4 + vl)) + rest.length)) := by
    simp [hv]
    omega
  rw [readU16_cons4]
  have e1 : (4 + vl) % 256 + 256 * ((4 + vl) / 256 % 256) = 4 + vl := by omega
  rw [e1]
  rw [dif_neg (by rw [hlength]; omega), dif_neg (by rw [hlength]; omega),
    dif_neg (by omega)]
  rw [readU16_cons4_drop2]
  have e2 : k % 256 + 256 * (k / 256 % 256) = k := by omega
  rw [e2]
  have e3 : 4 + vl - 4 = vl := by omega
  simp only [List.drop_succ_cons, List.drop_zero, e3]
  rw [take_append_eq_left vl v _ hv, hp, hdrop]
  cases hfold : nlasFold p1 err rest <;> simp [withContext, hfold, Except.map]

/-- The generic list walker inverts the generic list emission, given that
the single-record parser inverts each entry's record. -/
theorem nlasFold_nlasEmit (p1 : NlaRaw → Except String α) (err : String)
    (vl : α → Nat) (kind : α → Nat) (ev : α → List Nat) (l : List α)
    (h : ∀ a ∈ l, (ev a).length = vl a ∧ kind a < 65536
      ∧ 4 + vl a < 65536 ∧ p1 ⟨4 + vl a, kind a, ev a⟩ = .ok a) :
    nlasFold p1 err
        (nlasEmit (fun x => nlaEmitRecord (vl x) (kind x) (ev x)) l)
      = .ok l := by
  induction l with
  | nil => simpa [nlasEmit] using nlasFold_nil p1 err
  | cons a t ih =>
    have ha := h a (by simp)
    have hrest : nlasFold p1 err
        (nlasEmit (fun x => nlaEmitRecord (vl x) (kind x) (ev x)) t)
        = .ok t := ih (fun x hx => h x (by simp [hx]))
    have hemit : nlasEmit (fun x => nlaEmitRecord (vl x) (kind x) (ev x)) (a :: t)
        = nlaEmitRecord (vl a) (kind a) (ev a)
          ++ nlasEmit (fun x => nlaEmitRecord (vl x) (kind x) (ev x)) t := by
      simp [nlasEmit]
    rw [hemit, nlasFold_record p1 err (vl a) (kind a) (ev a) _ a
      ha.1 ha.2.1 ha.2.2.1 ha.2.2.2, hrest]
    rfl

/-! ### Parse inverts emit, level by level -/

/-- Re-applying the flag bits to the masked kind reconstructs any 16-bit
raw kind field. -/
theorem DefaultNla_parse_eq (len k : Nat) (v : List Nat) (hk : k < 65536) :
    DefaultNla.parse ⟨len, k, v⟩ = ⟨k, v⟩ := by
  unfold DefaultNla.parse NlaRaw.kind NlaRaw.nestedFlag NlaRaw.netByteorderFlag
  simp only [decide_eq_true_eq]
  congr 1
  split <;> split <;> omega

theorem TaprioScheduleEntryItem.item_emit_value_length
    (i : TaprioScheduleEntryItem) : i.emit_value.length = i.value_len := by
  cases i <;> simp [emit_value, value_len, writeU32,
    DefaultNla.emit_value, DefaultNla.value_len]

theorem TaprioScheduleEntryItem.item_parse_toRaw (i : TaprioScheduleEntryItem)
    (hi : i.valid = true) :
    TaprioScheduleEntryItem.parse ⟨4 + i.value_len, i.kind, i.emit_value⟩
      = .ok i := by
  cases i with
  | Cmd d =>
    simp [parse, kind, emit_value, NlaRaw.kind, parse_u8, withContext,
      TCA_TAPRIO_SCHED_ENTRY_CMD, Except.map]
  | GateMask d =>
    have hd : d < 4294967296 := by simpa [valid] using hi
    simp [parse, kind, emit_value, NlaRaw.kind, parse_u32, withContext,
      TCA_TAPRIO_SCHED_ENTRY_CMD, TCA_TAPRIO_SCHED_ENTRY_GATE_MASK,
      writeU32_length, readU32_writeU32', Nat.mod_eq_of_lt hd, Except.map]
  | Interval d =>
    have hd : d < 4294967296 := by simpa [valid] using hi
    simp [parse, kind, emit_value, NlaRaw.kind, parse_u32, withContext,
      TCA_TAPRIO_SCHED_ENTRY_CMD, TCA_TAPRIO_SCHED_ENTRY_GATE_MASK,
      TCA_TAPRIO_SCHED_ENTRY_INTERVAL,
      writeU32_length, readU32_writeU32', Nat.mod_eq_of_lt hd, Except.map]
  | Other attr =>
    simp [valid, DefaultNla.validAgainst,
      recognizedScheduleEntryItemKinds] at hi
    obtain ⟨⟨hk, hlen⟩, h2, h3, h4⟩ := hi
    simp [parse, kind, emit_value, value_len, NlaRaw.kind,
      DefaultNla.emit_value, DefaultNla.value_len,
      TCA_TAPRIO_SCHED_ENTRY_CMD,
      TCA_TAPRIO_SCHED_ENTRY_GATE_MASK, TCA_TAPRIO_SCHED_ENTRY_INTERVAL,
      h2, h3, h4,
      DefaultNla_parse_eq (4 + attr.value.length) attr.kind attr.value hk]

theorem TaprioScheduleEntryItem.item_record_facts (i : TaprioScheduleEntryItem)
    (hi : i.valid = true) : i.kind < 65536 ∧ 4 + i.value_len < 65536 := by
  cases i with
  | Other attr =>
    simp [valid, DefaultNla.validAgainst] at hi
    obtain ⟨⟨hk, hlen⟩, -⟩ := hi
    exact ⟨by simpa [kind] using hk,
      by simpa [value_len, DefaultNla.value_len] using hlen⟩
  | _ =>
    simp [kind, value_len, TCA_TAPRIO_SCHED_ENTRY_CMD,
      TCA_TAPRIO_SCHED_ENTRY_GATE_MASK, TCA_TAPRIO_SCHED_ENTRY_INTERVAL]

theorem TaprioTcEntry.tcEntry_emit_value_length (e : TaprioTcEntry) :
    e.emit_value.length = e.value_len := by
  cases e <;> simp [emit_value, value_len, writeU32,
    DefaultNla.emit_value, DefaultNla.value_len]

theorem TaprioTcEntry.tcEntry_parse_toRaw (e : TaprioTcEntry)
    (he : e.valid = true) :
    TaprioTcEntry.parse ⟨4 + e.value_len, e.kind, e.emit_value⟩ = .ok e := by
  cases e with
  | Index d =>
    have hd : d < 4294967296 := by simpa [valid] using he
    simp [parse, kind, emit_value, NlaRaw.kind, parse_u32, withContext,
      TCA_TAPRIO_TC_ENTRY_INDEX,
      writeU32_length, readU32_writeU32', Nat.mod_eq_of_lt hd, Except.map]
  | MaxSdu d =>
    have hd : d < 4294967296 := by simpa [valid] using he
    simp [parse, kind, emit_value, NlaRaw.kind, parse_u32, withContext,
      TCA_TAPRIO_TC_ENTRY_INDEX, TCA_TAPRIO_TC_ENTRY_MAX_SDU,
      writeU32_length, readU32_writeU32', Nat.mod_eq_of_lt hd, Except.map]
  | Fp d =>
    have hd : d < 4294967296 := by simpa [valid] using he
    simp [parse, kind, emit_value, NlaRaw.kind, parse_u32, withContext,
      TCA_TAPRIO_TC_ENTRY_INDEX, TCA_TAPRIO_TC_ENTRY_MAX_SDU,
      TCA_TAPRIO_TC_ENTRY_FP,
      writeU32_length, readU32_writeU32', Nat.mod_eq_of_lt hd, Except.map]
  | Other attr =>
    simp [valid, DefaultNla.validAgainst, recognizedTcEntryKinds] at he
    obtain ⟨⟨hk, hlen⟩, h1, h2, h3⟩ := he
    simp [parse, kind, emit_value, value_len, NlaRaw.kind,
      DefaultNla.emit_value, DefaultNla.value_len, TCA_TAPRIO_TC_ENTRY_INDEX,
      TCA_TAPRIO_TC_ENTRY_MAX_SDU, TCA_TAPRIO_TC_ENTRY_FP,
      h1, h2, h3,
      DefaultNla_parse_eq (4 + attr.value.length) attr.kind attr.value hk]

theorem TaprioTcEntry.tcEntry_record_facts (e : TaprioTcEntry)
    (he : e.valid = true) : e.kind < 65536 ∧ 4 + e.value_len < 65536 := by
  cases e with
  | Other attr =>
    simp [valid, DefaultNla.validAgainst] at he
    obtain ⟨⟨hk, hlen⟩, -⟩ := he
    exact ⟨by simpa [kind] using hk,
      by simpa [value_len, DefaultNla.value_len] using hlen⟩
  | _ =>
    simp [kind, value_len, TCA_TAPRIO_TC_ENTRY_INDEX,
      TCA_TAPRIO_TC_ENTRY_MAX_SDU, TCA_TAPRIO_TC_ENTRY_FP]

theorem nlasEmit_length (f : α → List Nat) (vl : α → Nat) (l : List α)
    (h : ∀ x ∈ l, (f x).length = nlaAlign (4 + vl x)) :
    (nlasEmit f l).length = nlasBufferLen vl l := by
  induction l with
  | nil => rfl
  | cons a t ih =>
    have ha := h a (by simp)
    have ht := ih (fun x hx => h x (by simp [hx]))
    simp [nlasEmit, nlasBufferLen] at *
    omega

theorem TaprioScheduleEntryItem.item_emit_length (i : TaprioScheduleEntryItem) :
    i.emit.length = nlaAlign (4 + i.value_len) :=
  nlaEmitRecord_length _ _ _ (TaprioScheduleEntryItem.item_emit_value_length i)

theorem TaprioScheduleEntry.schedEntry_emit_value_length (e : TaprioScheduleEntry) :
    e.emit_value.length = e.value_len := by
  cases e with
  | Entry items =>
    simpa [emit_value, value_len] using
      nlasEmit_length TaprioScheduleEntryItem.emit
        TaprioScheduleEntryItem.value_len items
        (fun x _ => TaprioScheduleEntryItem.item_emit_length x)
  | Other attr => simp [emit_value, value_len,
      DefaultNla.emit_value, DefaultNla.value_len]

theorem TaprioScheduleEntry.schedEntry_parse_toRaw (e : TaprioScheduleEntry)
    (he : e.valid = true) :
    TaprioScheduleEntry.parse ⟨4 + e.value_len, e.kind, e.emit_value⟩
      = .ok e := by
  cases e with
  | Entry items =>
    simp [valid] at he
    obtain ⟨hall, hlen⟩ := he
    have hwalk := nlasFold_nlasEmit TaprioScheduleEntryItem.parse
      "failed to parse TCA_TAPRIO_SCHED_ENTRY"
      TaprioScheduleEntryItem.value_len TaprioScheduleEntryItem.kind
      TaprioScheduleEntryItem.emit_value items
      (fun i hi => ⟨TaprioScheduleEntryItem.item_emit_value_length i,
        (TaprioScheduleEntryItem.item_record_facts i (hall i hi)).1,
        (TaprioScheduleEntryItem.item_record_facts i (hall i hi)).2,
        TaprioScheduleEntryItem.item_parse_toRaw i (hall i hi)⟩)
    simp only [parse, kind, emit_value, NlaRaw.kind, TCA_TAPRIO_SCHED_ENTRY]
    rw [if_pos (by norm_num)]
    rw [show nlasEmit TaprioScheduleEntryItem.emit items
      = nlasEmit (fun x => nlaEmitRecord x.value_len x.kind x.emit_value)
        items from rfl]
    rw [hwalk]
    rfl
  | Other attr =>
    simp [valid, DefaultNla.validAgainst, recognizedScheduleEntryKinds] at he
    obtain ⟨⟨hk, hlen⟩, h1⟩ := he
    simp [parse, kind, emit_value, value_len, NlaRaw.kind,
      DefaultNla.emit_value, DefaultNla.value_len, TCA_TAPRIO_SCHED_ENTRY,
      h1, DefaultNla_parse_eq (4 + attr.value.length) attr.kind attr.value hk]

theorem TaprioScheduleEntry.schedEntry_record_facts (e : TaprioScheduleEntry)
    (he : e.valid = true) : e.kind < 65536 ∧ 4 + e.value_len < 65536 := by
  cases e with
  | Entry items =>
    simp [valid] at he
    exact ⟨by simp [kind, TCA_TAPRIO_SCHED_ENTRY],
      by simpa [value_len] using he.2⟩
  | Other attr =>
    simp [valid, DefaultNla.validAgainst] at he
    obtain ⟨⟨hk, hlen⟩, -⟩ := he
    exact ⟨by simpa [kind] using hk,
      by simpa [value_len, DefaultNla.value_len] using hlen⟩

theorem TaprioTcEntry.tcEntry_emit_length (e : TaprioTcEntry) :
    e.emit.length = nlaAlign (4 + e.value_len) :=
  nlaEmitRecord_length _ _ _ (TaprioTcEntry.tcEntry_emit_value_length e)

theorem flatMap_writeU16_length (l : List Nat) :
    (l.flatMap writeU16).length = 2 * l.length := by
  induction l with
  | nil => rfl
  | cons c t ih =>
    simp [writeU16] at *
    omega

theorem readU16List_flatMap (l : List Nat) (h : ∀ c ∈ l, c < 65536) :
    readU16List (l.flatMap writeU16) = l := by
  induction l with
  | nil => rfl
  | cons c t ih =>
    have hc : c < 65536 := h c (by simp)
    have e : c % 256 + 256 * (c / 256 % 256) = c := by omega
    have ht := ih (fun x hx => h x (by simp [hx]))
    rw [List.flatMap_cons]
    show readU16List (c % 256 :: (c / 256 % 256) :: t.flatMap writeU16)
      = c :: t
    rw [readU16List, e, ht]

theorem TcPriomap.priomap_emit_length (p : TcPriomap) (hp : p.valid = true) :
    p.emit.length = 82 := by
  simp [valid] at hp
  have h1 := flatMap_writeU16_length p.count
  have h2 := flatMap_writeU16_length p.offset
  simp only [emit, List.length_append, List.length_cons, List.length_nil]
  omega

theorem TcPriomapBuffer.new_checked_ok (b : List Nat) (h : 82 ≤ b.length) :
    TcPriomapBuffer.new_checked b = .ok b := by
  rw [TcPriomapBuffer.new_checked, if_neg (by simp [TcPriomap.BUF_LEN]; omega)]

theorem TcPriomapBuffer.new_checked_short (b : List Nat)
    (h : b.length < 82) : TcPriomapBuffer.new_checked b
      = .error "buffer shorter than the 82-byte priomap record" := by
  rw [TcPriomapBuffer.new_checked, if_pos (by simpa [TcPriomap.BUF_LEN] using h)]

/-- The priomap parser inverts the priomap emission, on the emitted
82 bytes followed by any further bytes. -/
theorem TcPriomap.parse_emit (p : TcPriomap) (hp : p.valid = true)
    (extra : List Nat) : TcPriomap.parse (p.emit ++ extra) = .ok p := by
  obtain ⟨num, ptm, hw', cnt, off⟩ := p
  simp [valid] at hp
  obtain ⟨⟨⟨⟨⟨⟨⟨hnum, hhw⟩, hptm_len⟩, hptm⟩, hcnt_len⟩, hcnt⟩, hoff_len⟩,
    hoff⟩ := hp
  have hcb : (cnt.flatMap writeU16).length = 32 := by
    rw [flatMap_writeU16_length, hcnt_len]
  have h1 : TcPriomap.emit ⟨num, ptm, hw', cnt, off⟩ ++ extra
      = num :: (ptm ++ (hw' :: (cnt.flatMap writeU16
        ++ (off.flatMap writeU16 ++ extra)))) := by
    simp [emit]
  have h17 : TcPriomap.emit ⟨num, ptm, hw', cnt, off⟩ ++ extra
      = (num :: ptm) ++ (hw' :: (cnt.flatMap writeU16
        ++ (off.flatMap writeU16 ++ extra))) := by
    simp [emit]
  have h18 : TcPriomap.emit ⟨num, ptm, hw', cnt, off⟩ ++ extra
      = ((num :: ptm) ++ [hw']) ++ (cnt.flatMap writeU16
        ++ (off.flatMap writeU16 ++ extra)) := by
    simp [emit]
  have h50 : TcPriomap.emit ⟨num, ptm, hw', cnt, off⟩ ++ extra
      = (((num :: ptm) ++ [hw']) ++ cnt.flatMap writeU16)
        ++ (off.flatMap writeU16 ++ extra) := by
    simp [emit]
  have ha : TcPriomapBuffer.num_tc
      (TcPriomap.emit ⟨num, ptm, hw', cnt, off⟩ ++ extra) = num := by
    rw [h1]; rfl
  have hb : TcPriomapBuffer.prio_tc_map
      (TcPriomap.emit ⟨num, ptm, hw', cnt, off⟩ ++ extra) = ptm := by
    rw [h1]
    show (ptm ++ _).take 16 = ptm
    exact take_append_eq_left 16 ptm _ hptm_len
  have hc : TcPriomapBuffer.hw
      (TcPriomap.emit ⟨num, ptm, hw', cnt, off⟩ ++ extra) = hw' := by
    rw [h17, TcPriomapBuffer.hw,
      drop_append_eq_right 17 (num :: ptm) _ (by simp [hptm_len])]
    rfl
  have hd : TcPriomapBuffer.count
      (TcPriomap.emit ⟨num, ptm, hw', cnt, off⟩ ++ extra)
      = cnt.flatMap writeU16 := by
    rw [h18, TcPriomapBuffer.count,
      drop_append_eq_right 18 ((num :: ptm) ++ [hw']) _ (by simp [hptm_len])]
    exact take_append_eq_left 32 _ _ hcb
  have he' : TcPriomapBuffer.offset
      (TcPriomap.emit ⟨num, ptm, hw', cnt, off⟩ ++ extra)
      = off.flatMap writeU16 := by
    rw [h50, TcPriomapBuffer.offset,
      drop_append_eq_right 50 _ _ (by simp [hptm_len, hcb])]
    exact take_append_eq_left 32 _ _
      (by rw [flatMap_writeU16_length, hoff_len])
  simp [TcPriomap.parse, ha, hb, hc, hd, he', hptm_len,
    readU16List_flatMap cnt hcnt, readU16List_flatMap off hoff]

theorem TaprioScheduleEntry.schedEntry_emit_length (e : TaprioScheduleEntry) :
    e.emit.length = nlaAlign (4 + e.value_len) :=
  nlaEmitRecord_length _ _ _ (TaprioScheduleEntry.schedEntry_emit_value_length e)

theorem readI64_writeI64' (d : Int)
    (h1 : -9223372036854775808 ≤ d) (h2 : d < 9223372036854775808) :
    readI64 (writeI64 d) = d := by
  have := readI64_writeI64 d [] h1 h2
  simpa using this

theorem nlaBufferParse_emitRecord' (vl k : Nat) (v : List Nat)
    (hv : v.length = vl) (hk : k < 65536) (hlen : 4 + vl < 65536) :
    nlaBufferParse (nlaEmitRecord vl k v) = .ok ⟨4 + vl, k, v⟩ := by
  have := nlaBufferParse_emitRecord vl k v [] hv hk hlen
  simpa using this

theorem TcQdiscTaprioOption.option_emit_value_length (v : TcQdiscTaprioOption)
    (hv : v.valid = true) : v.emit_value.length = v.value_len := by
  cases v with
  | ClockId d => simp [emit_value, value_len, writeU32]
  | Flags d => simp [emit_value, value_len, writeU32]
  | TxtimeDelay d => simp [emit_value, value_len, writeU32]
  | Basetime d => simp [emit_value, value_len, writeI64_length]
  | Cycletime d => simp [emit_value, value_len, writeI64_length]
  | CycletimeExtension d => simp [emit_value, value_len, writeI64_length]
  | Priomap p =>
    simpa [emit_value, value_len, TcPriomap.buffer_len, TcPriomap.BUF_LEN]
      using TcPriomap.priomap_emit_length p (by simpa [valid] using hv)
  | Tc nlas =>
    simpa [emit_value, value_len] using
      nlasEmit_length TaprioTcEntry.emit TaprioTcEntry.value_len nlas
        (fun x _ => TaprioTcEntry.tcEntry_emit_length x)
  | Schedule nlas =>
    simpa [emit_value, value_len] using
      nlasEmit_length TaprioScheduleEntry.emit TaprioScheduleEntry.value_len
        nlas (fun x _ => TaprioScheduleEntry.schedEntry_emit_length x)
  | Other attr =>
    simp [emit_value, value_len, DefaultNla.emit_value, DefaultNla.value_len]

theorem TcQdiscTaprioOption.option_record_facts (v : TcQdiscTaprioOption)
    (hv : v.valid = true) : v.kind < 65536 ∧ 4 + v.value_len < 65536 := by
  cases v with
  | Priomap p =>
    simp [kind, value_len, TcPriomap.buffer_len, TcPriomap.BUF_LEN,
      TCA_TAPRIO_ATTR_PRIOMAP]
  | Tc nlas =>
    simp [valid] at hv
    exact ⟨by simp [kind, TCA_TAPRIO_ATTR_TC_ENTRY, NLA_F_NESTED],
      by simpa [value_len] using hv.2⟩
  | Schedule nlas =>
    simp [valid] at hv
    exact ⟨by simp [kind, TCA_TAPRIO_ATTR_SCHED_ENTRY_LIST, NLA_F_NESTED],
      by simpa [value_len] using hv.2⟩
  | Other attr =>
    simp [valid, DefaultNla.validAgainst] at hv
    obtain ⟨⟨hk, hlen⟩, -⟩ := hv
    exact ⟨by simpa [kind] using hk,
      by simpa [value_len, DefaultNla.value_len] using hlen⟩
  | ClockId d => simp [kind, value_len, TCA_TAPRIO_ATTR_SCHED_CLOCKID]
  | Flags d => simp [kind, value_len, TCA_TAPRIO_ATTR_FLAGS]
  | TxtimeDelay d => simp [kind, value_len, TCA_TAPRIO_ATTR_TXTIME_DELAY]
  | Basetime d => simp [kind, value_len, TCA_TAPRIO_ATTR_SCHED_BASE_TIME]
  | Cycletime d => simp [kind, value_len, TCA_TAPRIO_ATTR_SCHED_CYCLE_TIME]
  | CycletimeExtension d =>
    simp [kind, value_len, TCA_TAPRIO_ATTR_SCHED_CYCLE_TIME_EXTENSION]

theorem TcQdiscTaprioOption.option_parse_toRaw (v : TcQdiscTaprioOption)
    (hv : v.valid = true) :
    TcQdiscTaprioOption.parse ⟨4 + v.value_len, v.kind, v.emit_value⟩
      = .ok v := by
  cases v with
  | ClockId d =>
    have hd : d < 4294967296 := by simpa [valid] using hv
    simp [parse, kind, emit_value, NlaRaw.kind, parse_u32, withContext,
      TCA_TAPRIO_ATTR_SCHED_CLOCKID, writeU32_length, readU32_writeU32',
      Nat.mod_eq_of_lt hd, Except.map]
  | Flags d =>
    have hd : d < 4294967296 := by simpa [valid] using hv
    simp [parse, kind, emit_value, NlaRaw.kind, parse_u32, withContext,
      TCA_TAPRIO_ATTR_SCHED_CLOCKID, TCA_TAPRIO_ATTR_FLAGS, writeU32_length,
      readU32_writeU32', Nat.mod_eq_of_lt hd, Except.map]
  | TxtimeDelay d =>
    have hd : d < 4294967296 := by simpa [valid] using hv
    simp [parse, kind, emit_value, NlaRaw.kind, parse_u32, withContext,
      TCA_TAPRIO_ATTR_SCHED_CLOCKID, TCA_TAPRIO_ATTR_FLAGS,
      TCA_TAPRIO_ATTR_PRIOMAP, TCA_TAPRIO_ATTR_TXTIME_DELAY, writeU32_length,
      readU32_writeU32', Nat.mod_eq_of_lt hd, Except.map]
  | Basetime d =>
    simp [valid] at hv
    simp [parse, kind, emit_value, NlaRaw.kind, parse_i64, withContext,
      TCA_TAPRIO_ATTR_SCHED_CLOCKID, TCA_TAPRIO_ATTR_FLAGS,
      TCA_TAPRIO_ATTR_PRIOMAP, TCA_TAPRIO_ATTR_TXTIME_DELAY,
      TCA_TAPRIO_ATTR_SCHED_BASE_TIME, writeI64_length,
      readI64_writeI64' d hv.1 hv.2, Except.map]
  | Cycletime d =>
    simp [valid] at hv
    simp [parse, kind, emit_value, NlaRaw.kind, parse_i64, withContext,
      TCA_TAPRIO_ATTR_SCHED_CLOCKID, TCA_TAPRIO_ATTR_FLAGS,
      TCA_TAPRIO_ATTR_PRIOMAP, TCA_TAPRIO_ATTR_TXTIME_DELAY,
      TCA_TAPRIO_ATTR_SCHED_BASE_TIME, TCA_TAPRIO_ATTR_SCHED_CYCLE_TIME,
      writeI64_length, readI64_writeI64' d hv.1 hv.2, Except.map]
  | CycletimeExtension d =>
    simp [valid] at hv
    simp [parse, kind, emit_value, NlaRaw.kind, parse_i64, withContext,
      TCA_TAPRIO_ATTR_SCHED_CLOCKID, TCA_TAPRIO_ATTR_FLAGS,
      TCA_TAPRIO_ATTR_PRIOMAP, TCA_TAPRIO_ATTR_TXTIME_DELAY,
      TCA_TAPRIO_ATTR_SCHED_BASE_TIME, TCA_TAPRIO_ATTR_SCHED_CYCLE_TIME,
      TCA_TAPRIO_ATTR_SCHED_CYCLE_TIME_EXTENSION, writeI64_length,
      readI64_writeI64' d hv.1 hv.2, Except.map]
  | Priomap p =>
    have hpv : p.valid = true := by simpa [valid] using hv
    have hel := TcPriomap.priomap_emit_length p hpv
    have hge : TcPriomapBuffer.new_checked p.emit = .ok p.emit :=
      TcPriomapBuffer.new_checked_ok p.emit (by rw [hel])
    have hpp : TcPriomap.parse p.emit = .ok p := by
      have := TcPriomap.parse_emit p hpv []
      simpa using this
    have hpc : TcPriomap.parseChecked p.emit = .ok p := by
      unfold TcPriomap.parseChecked
      rw [hge]
      exact hpp
    simp [parse, kind, emit_value, NlaRaw.kind, TCA_TAPRIO_ATTR_SCHED_CLOCKID,
      TCA_TAPRIO_ATTR_FLAGS, TCA_TAPRIO_ATTR_PRIOMAP, hpc, Except.map]
  | Tc nlas =>
    simp [valid] at hv
    obtain ⟨hall, hlen⟩ := hv
    have hwalk : nlasFold TaprioTcEntry.parse
        "failed to parse TCA_TAPRIO_ATTR_TC_ENTRY"
        (nlasEmit TaprioTcEntry.emit nlas) = .ok nlas :=
      nlasFold_nlasEmit TaprioTcEntry.parse
        "failed to parse TCA_TAPRIO_ATTR_TC_ENTRY"
        TaprioTcEntry.value_len TaprioTcEntry.kind TaprioTcEntry.emit_value
        nlas (fun e he => ⟨TaprioTcEntry.tcEntry_emit_value_length e,
          (TaprioTcEntry.tcEntry_record_facts e (hall e he)).1,
          (TaprioTcEntry.tcEntry_record_facts e (hall e he)).2,
          TaprioTcEntry.tcEntry_parse_toRaw e (hall e he)⟩)
    simp only [parse, kind, emit_value, NlaRaw.kind,
      TCA_TAPRIO_ATTR_SCHED_CLOCKID,
      TCA_TAPRIO_ATTR_FLAGS, TCA_TAPRIO_ATTR_PRIOMAP,
      TCA_TAPRIO_ATTR_TXTIME_DELAY, TCA_TAPRIO_ATTR_SCHED_BASE_TIME,
      TCA_TAPRIO_ATTR_SCHED_CYCLE_TIME,
      TCA_TAPRIO_ATTR_SCHED_CYCLE_TIME_EXTENSION, TCA_TAPRIO_ATTR_TC_ENTRY,
      NLA_F_NESTED]
    norm_num
    rw [hwalk]
    rfl
  | Schedule nlas =>
    simp [valid] at hv
    obtain ⟨hall, hlen⟩ := hv
    have hwalk : nlasFold TaprioScheduleEntry.parse
        "failed to parse TCA_TAPRIO_ATTR_SCHED_ENTRY_LIST"
        (nlasEmit TaprioScheduleEntry.emit nlas) = .ok nlas :=
      nlasFold_nlasEmit TaprioScheduleEntry.parse
        "failed to parse TCA_TAPRIO_ATTR_SCHED_ENTRY_LIST"
        TaprioScheduleEntry.value_len TaprioScheduleEntry.kind
        TaprioScheduleEntry.emit_value nlas
        (fun e he => ⟨TaprioScheduleEntry.schedEntry_emit_value_length e,
          (TaprioScheduleEntry.schedEntry_record_facts e (hall e he)).1,
          (TaprioScheduleEntry.schedEntry_record_facts e (hall e he)).2,
          TaprioScheduleEntry.schedEntry_parse_toRaw e (hall e he)⟩)
    simp only [parse, kind, emit_value, NlaRaw.kind,
      TCA_TAPRIO_ATTR_SCHED_CLOCKID,
      TCA_TAPRIO_ATTR_FLAGS, TCA_TAPRIO_ATTR_PRIOMAP,
      TCA_TAPRIO_ATTR_TXTIME_DELAY, TCA_TAPRIO_ATTR_SCHED_BASE_TIME,
      TCA_TAPRIO_ATTR_SCHED_CYCLE_TIME,
      TCA_TAPRIO_ATTR_SCHED_CYCLE_TIME_EXTENSION, TCA_TAPRIO_ATTR_TC_ENTRY,
      TCA_TAPRIO_ATTR_SCHED_ENTRY_LIST, NLA_F_NESTED]
    norm_num
    rw [hwalk]
    rfl
  | Other attr =>
    simp [valid, DefaultNla.validAgainst, recognizedTopKinds] at hv
    obtain ⟨⟨hk, hlen⟩, h1, h2, h3, h5, h8, h9, h10, h11, h12⟩ := hv
    simp [parse, kind, emit_value, value_len, NlaRaw.kind,
      DefaultNla.emit_value, DefaultNla.value_len,
      TCA_TAPRIO_ATTR_SCHED_CLOCKID, TCA_TAPRIO_ATTR_FLAGS,
      TCA_TAPRIO_ATTR_PRIOMAP, TCA_TAPRIO_ATTR_TXTIME_DELAY,
      TCA_TAPRIO_ATTR_SCHED_BASE_TIME, TCA_TAPRIO_ATTR_SCHED_CYCLE_TIME,
      TCA_TAPRIO_ATTR_SCHED_CYCLE_TIME_EXTENSION, TCA_TAPRIO_ATTR_TC_ENTRY,
      TCA_TAPRIO_ATTR_SCHED_ENTRY_LIST,
      h1, h2, h3, h5, h8, h9, h10, h11, h12,
      DefaultNla_parse_eq (4 + attr.value.length) attr.kind attr.value hk]

/-- Parsing the emitted record of a valid typed value, through the checked
buffer view, returns the value itself. -/
theorem TcQdiscTaprioOption.parseFromBytes_emit (v : TcQdiscTaprioOption)
    (hv : v.valid = true) :
    TcQdiscTaprioOption.parseFromBytes v.emit = .ok v := by
  have hf := TcQdiscTaprioOption.option_record_facts v hv
  have hev := TcQdiscTaprioOption.option_emit_value_length v hv
  unfold TcQdiscTaprioOption.parseFromBytes
  rw [show TcQdiscTaprioOption.emit v
    = nlaEmitRecord v.value_len v.kind v.emit_value from rfl,
    nlaBufferParse_emitRecord' _ _ _ hev hf.1 hf.2]
  exact TcQdiscTaprioOption.option_parse_toRaw v hv

/-- Whether the nested-flag bit 0x8000 is set in a kind code. -/
def nlaHasNestedFlag (k : Nat) : Bool := decide (k / 32768 % 2 = 1)

/-! ### Claim theorems -/

/-- C1: for every valid typed value `v` of `TcQdiscTaprioOption`
(including the Priomap fixed record, Tc nested lists and Schedule nested
lists of nested lists), emitting `v` as an attribute record (header plus
value, via `value_len`/`emit_value`/`kind`) and then parsing the resulting
bytes succeeds and yields a value equal to `v`. -/
theorem claim_c1_roundtrip (v : TcQdiscTaprioOption) (hv : v.valid = true) :
    TcQdiscTaprioOption.parseFromBytes v.emit = .ok v :=
  TcQdiscTaprioOption.parseFromBytes_emit v hv

theorem claim_c1_roundtrip_witness :
    (TcQdiscTaprioOption.Schedule
        [.Entry [.Cmd 0, .GateMask 1, .Interval 300000]]).valid = true
    ∧ TcQdiscTaprioOption.parseFromBytes
        (TcQdiscTaprioOption.Schedule
          [.Entry [.Cmd 0, .GateMask 1, .Interval 300000]]).emit
      = .ok (.Schedule [.Entry [.Cmd 0, .GateMask 1, .Interval 300000]]) :=
  ⟨by decide, claim_c1_roundtrip
    (.Schedule [.Entry [.Cmd 0, .GateMask 1, .Interval 300000]]) (by decide)⟩

/-- C2 counterexample: the claim asserts the nested-flag bit is set on
`TaprioScheduleEntry::Entry`, whose value is a TLV stream; but `kind` of
an `Entry` is the bare code 1 with the nested flag clear. -/
theorem claim_c2_counterexample :
    TaprioScheduleEntry.kind (.Entry []) = TCA_TAPRIO_SCHED_ENTRY
    ∧ TCA_TAPRIO_SCHED_ENTRY = 1
    ∧ nlaHasNestedFlag (TaprioScheduleEntry.kind (.Entry [])) = false := by
  refine ⟨rfl, rfl, ?_⟩
  decide

/-- C2 (amended): among the codec's own kinds the nested flag is set on
exactly the two top-level container kinds Tc and Schedule; every scalar
and fixed-record kind lacks it, and so does `TaprioScheduleEntry::Entry`,
even though an Entry's value is itself a TLV stream of items. -/
theorem claim_c2_amended :
    (∀ d, nlaHasNestedFlag (TcQdiscTaprioOption.kind (.ClockId d)) = false)
    ∧ (∀ d, nlaHasNestedFlag (TcQdiscTaprioOption.kind (.Flags d)) = false)
    ∧ (∀ p, nlaHasNestedFlag (TcQdiscTaprioOption.kind (.Priomap p)) = false)
    ∧ (∀ d, nlaHasNestedFlag (TcQdiscTaprioOption.kind (.TxtimeDelay d))
        = false)
    ∧ (∀ d, nlaHasNestedFlag (TcQdiscTaprioOption.kind (.Basetime d)) = false)
    ∧ (∀ d, nlaHasNestedFlag (TcQdiscTaprioOption.kind (.Cycletime d))
        = false)
    ∧ (∀ d, nlaHasNestedFlag
        (TcQdiscTaprioOption.kind (.CycletimeExtension d)) = false)
    ∧ (∀ l, nlaHasNestedFlag (TcQdiscTaprioOption.kind (.Tc l)) = true)
    ∧ (∀ l, nlaHasNestedFlag (TcQdiscTaprioOption.kind (.Schedule l)) = true)
    ∧ (∀ d, nlaHasNestedFlag (TaprioTcEntry.kind (.Index d)) = false)
    ∧ (∀ d, nlaHasNestedFlag (TaprioTcEntry.kind (.MaxSdu d)) = false)
    ∧ (∀ d, nlaHasNestedFlag (TaprioTcEntry.kind (.Fp d)) = false)
    ∧ (∀ d, nlaHasNestedFlag (TaprioScheduleEntryItem.kind (.Cmd d)) = false)
    ∧ (∀ d, nlaHasNestedFlag (TaprioScheduleEntryItem.kind (.GateMask d))
        = false)
    ∧ (∀ d, nlaHasNestedFlag (TaprioScheduleEntryItem.kind (.Interval d))
        = false)
    ∧ (∀ items, TaprioScheduleEntry.emit_value (.Entry items)
        = nlasEmit TaprioScheduleEntryItem.emit items)
    ∧ (∀ items, nlaHasNestedFlag (TaprioScheduleEntry.kind (.Entry items))
        = false) :=
  by
  refine ⟨fun d => ?_, fun d => ?_, fun p => ?_, fun d => ?_, fun d => ?_,
    fun d => ?_, fun d => ?_, fun l => ?_, fun l => ?_, fun d => ?_,
    fun d => ?_, fun d => ?_, fun d => ?_, fun d => ?_, fun d => ?_,
    fun items => ?_, fun items => ?_⟩
  · show nlaHasNestedFlag 5 = false
    rfl
  · show nlaHasNestedFlag 10 = false
    rfl
  · show nlaHasNestedFlag 1 = false
    rfl
  · show nlaHasNestedFlag 11 = false
    rfl
  · show nlaHasNestedFlag 3 = false
    rfl
  · show nlaHasNestedFlag 8 = false
    rfl
  · show nlaHasNestedFlag 9 = false
    rfl
  · show nlaHasNestedFlag (12 + 32768) = true
    rfl
  · show nlaHasNestedFlag (2 + 32768) = true
    rfl
  · show nlaHasNestedFlag 1 = false
    rfl
  · show nlaHasNestedFlag 2 = false
    rfl
  · show nlaHasNestedFlag 3 = false
    rfl
  · show nlaHasNestedFlag 2 = false
    rfl
  · show nlaHasNestedFlag 3 = false
    rfl
  · show nlaHasNestedFlag 4 = false
    rfl
  · rfl
  · show nlaHasNestedFlag 1 = false
    rfl

/-- C6: `kind` returns exactly the wire code of the kind-code table for
every variant: ClockId 5, Flags 10, Priomap 1, TxtimeDelay 11, Basetime 3,
Cycletime 8, CycletimeExtension 9, Tc 12 with the nested flag 0x8000
applied, Schedule 2 with the nested flag applied. -/
theorem claim_c6_kind_codes :
    (∀ d, TcQdiscTaprioOption.kind (.ClockId d) = 5)
    ∧ (∀ d, TcQdiscTaprioOption.kind (.Flags d) = 10)
    ∧ (∀ p, TcQdiscTaprioOption.kind (.Priomap p) = 1)
    ∧ (∀ d, TcQdiscTaprioOption.kind (.TxtimeDelay d) = 11)
    ∧ (∀ d, TcQdiscTaprioOption.kind (.Basetime d) = 3)
    ∧ (∀ d, TcQdiscTaprioOption.kind (.Cycletime d) = 8)
    ∧ (∀ d, TcQdiscTaprioOption.kind (.CycletimeExtension d) = 9)
    ∧ (∀ l, TcQdiscTaprioOption.kind (.Tc l) = 12 + 32768)
    ∧ (∀ l, TcQdiscTaprioOption.kind (.Schedule l) = 2 + 32768) :=
  ⟨fun _ => rfl, fun _ => rfl, fun _ => rfl, fun _ => rfl, fun _ => rfl,
    fun _ => rfl, fun _ => rfl, fun _ => rfl, fun _ => rfl⟩

/-- C8: `fp_from_char` maps exactly 'E' to Fp 1 and 'P' to Fp 2 and fails
on every other character; `cmd_from_char` maps exactly 'S' to Cmd 0 and
fails on every other character. -/
theorem claim_c8_char_constructors :
    TaprioTcEntry.fp_from_char 'E' = .ok (.Fp 1)
    ∧ TaprioTcEntry.fp_from_char 'P' = .ok (.Fp 2)
    ∧ (∀ c : Char, c ≠ 'E' → c ≠ 'P' → TaprioTcEntry.fp_from_char c
        = .error "Currently, only E and P are valid for FP")
    ∧ TaprioScheduleEntryItem.cmd_from_char 'S' = .ok (.Cmd 0)
    ∧ (∀ c : Char, c ≠ 'S' → TaprioScheduleEntryItem.cmd_from_char c
        = .error "Currently, only S is valid as command") := by
  refine ⟨rfl, ?_, ?_, rfl, ?_⟩
  · rfl
  · intro c h1 h2
    simp [TaprioTcEntry.fp_from_char, h1, h2]
  · intro c h1
    simp [TaprioScheduleEntryItem.cmd_from_char, h1]

theorem claim_c8_char_constructors_witness :
    TaprioTcEntry.fp_from_char 'X'
      = .error "Currently, only E and P are valid for FP"
    ∧ TaprioScheduleEntryItem.cmd_from_char 'Q'
      = .error "Currently, only S is valid as command" :=
  ⟨claim_c8_char_constructors.2.2.1 'X' (by decide) (by decide),
    claim_c8_char_constructors.2.2.2.2 'Q' (by decide)⟩

/-- C9: the Cmd variant declares a 1-byte value; its `emit_value` writes
exactly one byte at index 0 of the supplied buffer, leaving the buffer
length and every byte at a nonzero index unchanged; parsing a Cmd record
whose declared value is the single byte `b` succeeds with `Cmd b`. -/
theorem claim_c9_cmd_single_byte :
    (∀ d, TaprioScheduleEntryItem.value_len (.Cmd d) = 1)
    ∧ (∀ d buffer, (TaprioScheduleEntryItem.emitValueInto (.Cmd d)
        buffer).length = buffer.length)
    ∧ (∀ d buffer i, i ≠ 0 → (TaprioScheduleEntryItem.emitValueInto (.Cmd d)
        buffer).getD i 0 = buffer.getD i 0)
    ∧ (∀ d buffer, 0 < buffer.length →
        (TaprioScheduleEntryItem.emitValueInto (.Cmd d) buffer).getD 0 0 = d)
    ∧ (∀ len b, TaprioScheduleEntryItem.parse ⟨len, 2, [b]⟩
        = .ok (.Cmd b)) := by
  refine ⟨fun d => rfl, fun d buffer => by
    simp [TaprioScheduleEntryItem.emitValueInto],
    ?_, ?_, ?_⟩
  · intro d buffer i hi
    cases buffer with
    | nil => simp [TaprioScheduleEntryItem.emitValueInto]
    | cons a t =>
      cases i with
      | zero => exact absurd rfl hi
      | succ j => simp [TaprioScheduleEntryItem.emitValueInto]
  · intro d buffer h
    cases buffer with
    | nil => simp at h
    | cons a t => simp [TaprioScheduleEntryItem.emitValueInto]
  · intro len b
    simp [TaprioScheduleEntryItem.parse, NlaRaw.kind, parse_u8, withContext,
      TCA_TAPRIO_SCHED_ENTRY_CMD, Except.map]

theorem claim_c9_cmd_single_byte_witness :
    (TaprioScheduleEntryItem.emitValueInto (.Cmd 7) [1, 2, 3]).getD 1 0 = 2
    ∧ (TaprioScheduleEntryItem.emitValueInto (.Cmd 7) [1, 2, 3]).getD 0 0
      = 7 := by
  constructor
  · have h := claim_c9_cmd_single_byte.2.2.1 7 [1, 2, 3] 1 (by decide)
    simpa using h
  · have h := claim_c9_cmd_single_byte.2.2.2.1 7 [1, 2, 3] (by decide)
    simpa using h

/-- C3 counterexample: the claim says decoding fails for every buffer
whose length is not exactly 82 bytes, but the checked constructor only
rejects short buffers: an all-zero 86-byte buffer decodes successfully. -/
theorem claim_c3_counterexample :
    (List.replicate 86 0).length ≠ 82
    ∧ TcPriomap.parseChecked (List.replicate 86 0)
      = .ok ⟨0, List.replicate 16 0, 0, List.replicate 16 0,
          List.replicate 16 0⟩ := by
  constructor
  · decide
  · rfl

/-- C3 (amended): decoding a priomap payload fails with a decode error
exactly when the buffer is shorter than 82 bytes; on any buffer of at
least 82 bytes (in particular exactly 82) it succeeds, reproducing
`num_tc`, `prio_tc_map`, `hw`, `count` and `offset` from their fixed
offsets, as an emitted record optionally followed by extra bytes
witnesses. -/
theorem claim_c3_priomap_length (b : List Nat) (p : TcPriomap)
    (extra : List Nat) (hb : b.length < 82) (hp : p.valid = true) :
    TcPriomap.parseChecked b
      = .error "buffer shorter than the 82-byte priomap record"
    ∧ TcPriomap.parseChecked (p.emit ++ extra) = .ok p := by
  constructor
  · unfold TcPriomap.parseChecked
    rw [TcPriomapBuffer.new_checked_short b hb]
  · have hel := TcPriomap.priomap_emit_length p hp
    unfold TcPriomap.parseChecked
    rw [TcPriomapBuffer.new_checked_ok _ (by simp [hel])]
    exact TcPriomap.parse_emit p hp extra

theorem claim_c3_priomap_length_witness :
    TcPriomap.parseChecked [0, 0, 0]
      = .error "buffer shorter than the 82-byte priomap record"
    ∧ TcPriomap.parseChecked
        (TcPriomap.emit ⟨3, List.replicate 16 2, 0, List.replicate 16 1,
          List.replicate 16 4⟩ ++ [9, 9])
      = .ok ⟨3, List.replicate 16 2, 0, List.replicate 16 1,
          List.replicate 16 4⟩ :=
  claim_c3_priomap_length [0, 0, 0]
    ⟨3, List.replicate 16 2, 0, List.replicate 16 1, List.replicate 16 4⟩
    [9, 9] (by decide) (by decide)

/-- C4: a structurally well-formed attribute record whose masked kind code
is not one of the recognized codes 1, 2, 3, 5, 8, 9, 10, 11, 12 parses to
the Other escape variant preserving the raw kind and raw value bytes, and
re-emitting that value reproduces the original record bytes exactly. -/
theorem claim_c4_unknown_kind_passthrough (k n : Nat) (v : List Nat)
    (hk : k < 65536) (hn : v.length = n) (hlen : 4 + n < 65536)
    (hunrec : k % 16384 ∉ recognizedTopKinds) :
    TcQdiscTaprioOption.parseFromBytes (nlaEmitRecord n k v)
      = .ok (.Other ⟨k, v⟩)
    ∧ TcQdiscTaprioOption.emit (.Other ⟨k, v⟩) = nlaEmitRecord n k v := by
  subst hn
  simp [recognizedTopKinds] at hunrec
  obtain ⟨h1, h2, h3, h5, h8, h9, h10, h11, h12⟩ := hunrec
  constructor
  · unfold TcQdiscTaprioOption.parseFromBytes
    rw [nlaBufferParse_emitRecord' v.length k v rfl hk hlen]
    simp [TcQdiscTaprioOption.parse, NlaRaw.kind,
      TCA_TAPRIO_ATTR_SCHED_CLOCKID, TCA_TAPRIO_ATTR_FLAGS,
      TCA_TAPRIO_ATTR_PRIOMAP, TCA_TAPRIO_ATTR_TXTIME_DELAY,
      TCA_TAPRIO_ATTR_SCHED_BASE_TIME, TCA_TAPRIO_ATTR_SCHED_CYCLE_TIME,
      TCA_TAPRIO_ATTR_SCHED_CYCLE_TIME_EXTENSION, TCA_TAPRIO_ATTR_TC_ENTRY,
      TCA_TAPRIO_ATTR_SCHED_ENTRY_LIST,
      h1, h2, h3, h5, h8, h9, h10, h11, h12,
      DefaultNla_parse_eq (4 + v.length) k v hk]
  · rfl

theorem claim_c4_unknown_kind_passthrough_witness :
    TcQdiscTaprioOption.parseFromBytes (nlaEmitRecord 3 100 [9, 9, 9])
      = .ok (.Other ⟨100, [9, 9, 9]⟩)
    ∧ TcQdiscTaprioOption.emit (.Other ⟨100, [9, 9, 9]⟩)
      = nlaEmitRecord 3 100 [9, 9, 9] :=
  claim_c4_unknown_kind_passthrough 100 3 [9, 9, 9] (by decide) (by decide)
    (by decide) (by decide)

/-- C5 counterexample: the claim says parsing a Tc container succeeds only
when its value holds exactly three sub-attributes, but the decoder accepts
an empty value, yielding an empty entry list. -/
theorem claim_c5_counterexample :
    TcQdiscTaprioOption.parse ⟨4, 12, []⟩ = .ok (.Tc [])
    ∧ ([] : List TaprioTcEntry).length ≠ 3 := by
  constructor
  · simp only [TcQdiscTaprioOption.parse, NlaRaw.kind,
      TCA_TAPRIO_ATTR_SCHED_CLOCKID, TCA_TAPRIO_ATTR_FLAGS,
      TCA_TAPRIO_ATTR_PRIOMAP, TCA_TAPRIO_ATTR_TXTIME_DELAY,
      TCA_TAPRIO_ATTR_SCHED_BASE_TIME, TCA_TAPRIO_ATTR_SCHED_CYCLE_TIME,
      TCA_TAPRIO_ATTR_SCHED_CYCLE_TIME_EXTENSION, TCA_TAPRIO_ATTR_TC_ENTRY]
    norm_num
    rw [nlasFold_nil]
    rfl
  · decide

/-- C5 (amended): parsing a Tc container attribute (kind code 12 after
masking) succeeds on the TLV stream of any list of valid sub-attributes —
in particular the three scalars Index, MaxSdu and Fp in any order — and
yields exactly those entries in stream order; the decoder imposes no
constraint on the number of sub-attributes. -/
theorem claim_c5_tc_container (l : List TaprioTcEntry) (len : Nat)
    (h : ∀ e ∈ l, e.valid = true) :
    TcQdiscTaprioOption.parse ⟨len, TCA_TAPRIO_ATTR_TC_ENTRY,
      nlasEmit TaprioTcEntry.emit l⟩ = .ok (.Tc l) := by
  have hwalk : nlasFold TaprioTcEntry.parse
      "failed to parse TCA_TAPRIO_ATTR_TC_ENTRY"
      (nlasEmit TaprioTcEntry.emit l) = .ok l :=
    nlasFold_nlasEmit TaprioTcEntry.parse
      "failed to parse TCA_TAPRIO_ATTR_TC_ENTRY"
      TaprioTcEntry.value_len TaprioTcEntry.kind TaprioTcEntry.emit_value
      l (fun e he => ⟨TaprioTcEntry.tcEntry_emit_value_length e,
        (TaprioTcEntry.tcEntry_record_facts e (h e he)).1,
        (TaprioTcEntry.tcEntry_record_facts e (h e he)).2,
        TaprioTcEntry.tcEntry_parse_toRaw e (h e he)⟩)
  simp only [TcQdiscTaprioOption.parse, NlaRaw.kind,
    TCA_TAPRIO_ATTR_SCHED_CLOCKID, TCA_TAPRIO_ATTR_FLAGS,
    TCA_TAPRIO_ATTR_PRIOMAP, TCA_TAPRIO_ATTR_TXTIME_DELAY,
    TCA_TAPRIO_ATTR_SCHED_BASE_TIME, TCA_TAPRIO_ATTR_SCHED_CYCLE_TIME,
    TCA_TAPRIO_ATTR_SCHED_CYCLE_TIME_EXTENSION, TCA_TAPRIO_ATTR_TC_ENTRY]
  norm_num
  rw [hwalk]
  rfl

theorem claim_c5_tc_container_witness :
    TcQdiscTaprioOption.parse ⟨4, TCA_TAPRIO_ATTR_TC_ENTRY,
      nlasEmit TaprioTcEntry.emit [.Fp 1, .Index 0, .MaxSdu 7]⟩
      = .ok (.Tc [.Fp 1, .Index 0, .MaxSdu 7]) :=
  claim_c5_tc_container [.Fp 1, .Index 0, .MaxSdu 7] 4 (by decide)

/-- C7: for every recognized scalar kind the parser succeeds exactly when
the declared value has the scalar's fixed width — 4 bytes for ClockId,
Flags, TxtimeDelay, Index, MaxSdu, Fp, GateMask and Interval, 8 bytes for
Basetime, Cycletime and CycletimeExtension, 1 byte for Cmd — and
otherwise fails with a decode error naming that attribute. -/
theorem claim_c7_scalar_widths :
    (∀ len p, TcQdiscTaprioOption.parse ⟨len, 5, p⟩
      = if p.length = 4 then .ok (.ClockId (readU32 p))
        else .error ("failed to parse TCA_TAPRIO_ATTR_SCHED_CLOCKID"
          ++ ": " ++ "invalid u32"))
    ∧ (∀ len p, TcQdiscTaprioOption.parse ⟨len, 10, p⟩
      = if p.length = 4 then .ok (.Flags (readU32 p))
        else .error ("failed to parse TCA_TAPRIO_ATTR_SCHED_FLAGS"
          ++ ": " ++ "invalid u32"))
    ∧ (∀ len p, TcQdiscTaprioOption.parse ⟨len, 11, p⟩
      = if p.length = 4 then .ok (.TxtimeDelay (readU32 p))
        else .error ("failed to parse TCA_TAPRIO_ATTR_TXTIME_DELAY"
          ++ ": " ++ "invalid u32"))
    ∧ (∀ len p, TcQdiscTaprioOption.parse ⟨len, 3, p⟩
      = if p.length = 8 then .ok (.Basetime (readI64 p))
        else .error ("failed to parse TCA_TAPRIO_ATTR_SCHED_BASE_TIME"
          ++ ": " ++ "invalid i64"))
    ∧ (∀ len p, TcQdiscTaprioOption.parse ⟨len, 8, p⟩
      = if p.length = 8 then .ok (.Cycletime (readI64 p))
        else .error ("failed to parse TCA_TAPRIO_ATTR_SCHED_CYCLE_TIME"
          ++ ": " ++ "invalid i64"))
    ∧ (∀ len p, TcQdiscTaprioOption.parse ⟨len, 9, p⟩
      = if p.length = 8 then .ok (.CycletimeExtension (readI64 p))
        else .error
          ("failed to parse TCA_TAPRIO_ATTR_SCHED_CYCLE_TIME_EXTENSION"
          ++ ": " ++ "invalid i64"))
    ∧ (∀ len p, TaprioTcEntry.parse ⟨len, 1, p⟩
      = if p.length = 4 then .ok (.Index (readU32 p))
        else .error ("failed to parse TCA_TAPRIO_TC_ENTRY_INDEX"
          ++ ": " ++ "invalid u32"))
    ∧ (∀ len p, TaprioTcEntry.parse ⟨len, 2, p⟩
      = if p.length = 4 then .ok (.MaxSdu (readU32 p))
        else .error ("failed to parse TCA_TAPRIO_TC_ENTRY_MAX_SDU"
          ++ ": " ++ "invalid u32"))
    ∧ (∀ len p, TaprioTcEntry.parse ⟨len, 3, p⟩
      = if p.length = 4 then .ok (.Fp (readU32 p))
        else .error ("failed to parse TCA_TAPRIO_TC_ENTRY_FP"
          ++ ": " ++ "invalid u32"))
    ∧ (∀ len p, TaprioScheduleEntryItem.parse ⟨len, 2, p⟩
      = if p.length = 1 then .ok (.Cmd (p.getD 0 0))
        else .error ("failed to parse TCA_TAPRIO_SCHED_ENTRY_CMD"
          ++ ": " ++ "invalid u8"))
    ∧ (∀ len p, TaprioScheduleEntryItem.parse ⟨len, 3, p⟩
      = if p.length = 4 then .ok (.GateMask (readU32 p))
        else .error ("failed to parse TCA_TAPRIO_SCHED_ENTRY_GATE_MASK"
          ++ ": " ++ "invalid u32"))
    ∧ (∀ len p, TaprioScheduleEntryItem.parse ⟨len, 4, p⟩
      = if p.length = 4 then .ok (.Interval (readU32 p))
        else .error ("failed to parse TCA_TAPRIO_SCHED_ENTRY_INTERVAL"
          ++ ": " ++ "invalid u32")) := by
  refine ⟨?_, ?_, ?_, ?_, ?_, ?_, ?_, ?_, ?_, ?_, ?_, ?_⟩ <;>
    intro len p <;>
    simp only [TcQdiscTaprioOption.parse, TaprioTcEntry.parse,
      TaprioScheduleEntryItem.parse, NlaRaw.kind,
      TCA_TAPRIO_ATTR_SCHED_CLOCKID, TCA_TAPRIO_ATTR_FLAGS,
      TCA_TAPRIO_ATTR_PRIOMAP, TCA_TAPRIO_ATTR_TXTIME_DELAY,
      TCA_TAPRIO_ATTR_SCHED_BASE_TIME, TCA_TAPRIO_ATTR_SCHED_CYCLE_TIME,
      TCA_TAPRIO_ATTR_SCHED_CYCLE_TIME_EXTENSION, TCA_TAPRIO_ATTR_TC_ENTRY,
      TCA_TAPRIO_ATTR_SCHED_ENTRY_LIST, TCA_TAPRIO_TC_ENTRY_INDEX,
      TCA_TAPRIO_TC_ENTRY_MAX_SDU, TCA_TAPRIO_TC_ENTRY_FP,
      TCA_TAPRIO_SCHED_ENTRY_CMD, TCA_TAPRIO_SCHED_ENTRY_GATE_MASK,
      TCA_TAPRIO_SCHED_ENTRY_INTERVAL] <;>
    norm_num <;>
    split <;>
    rename_i hp <;>
    simp [parse_u32, parse_u8, parse_i64, withContext, hp, Except.map]

/-- Whether a parse result is the Other escape variant. -/
def isOtherResult : Except String TcQdiscTaprioOption → Bool
  | .ok (.Other _) => true
  | _ => false

theorem isOtherResult_map (f : α → TcQdiscTaprioOption)
    (e : Except String α) (hf : ∀ x, isOtherResult (.ok (f x)) = false) :
    isOtherResult (Except.map f e) = false := by
  cases e with
  | error err => rfl
  | ok x => exact hf x

/-- C10: the option parser dispatches on the kind code with the flag bits
masked off: a wire kind of 12 decodes to Tc and a wire kind of 2 decodes
to Schedule whether or not the nested flag 0x8000 is set, and a record
whose masked kind is recognized never decodes to the Other escape
variant. -/
theorem claim_c10_masked_dispatch :
    (∀ len v, TcQdiscTaprioOption.parse ⟨len, 12 + 32768, v⟩
      = TcQdiscTaprioOption.parse ⟨len, 12, v⟩)
    ∧ (∀ len v, TcQdiscTaprioOption.parse ⟨len, 2 + 32768, v⟩
      = TcQdiscTaprioOption.parse ⟨len, 2, v⟩)
    ∧ TcQdiscTaprioOption.parse ⟨4, 12 + 32768, []⟩ = .ok (.Tc [])
    ∧ TcQdiscTaprioOption.parse ⟨4, 2 + 32768, []⟩ = .ok (.Schedule [])
    ∧ TcQdiscTaprioOption.parse ⟨4, 2, []⟩ = .ok (.Schedule [])
    ∧ (∀ r : NlaRaw, r.rawKind % 16384 ∈ recognizedTopKinds →
      isOtherResult (TcQdiscTaprioOption.parse r) = false) := by
  refine ⟨?_, ?_, ?_, ?_, ?_, ?_⟩
  · intro len v
    simp only [TcQdiscTaprioOption.parse, NlaRaw.kind,
      TCA_TAPRIO_ATTR_SCHED_CLOCKID, TCA_TAPRIO_ATTR_FLAGS,
      TCA_TAPRIO_ATTR_PRIOMAP, TCA_TAPRIO_ATTR_TXTIME_DELAY,
      TCA_TAPRIO_ATTR_SCHED_BASE_TIME, TCA_TAPRIO_ATTR_SCHED_CYCLE_TIME,
      TCA_TAPRIO_ATTR_SCHED_CYCLE_TIME_EXTENSION, TCA_TAPRIO_ATTR_TC_ENTRY]
    norm_num
  · intro len v
    simp only [TcQdiscTaprioOption.parse, NlaRaw.kind,
      TCA_TAPRIO_ATTR_SCHED_CLOCKID, TCA_TAPRIO_ATTR_FLAGS,
      TCA_TAPRIO_ATTR_PRIOMAP, TCA_TAPRIO_ATTR_TXTIME_DELAY,
      TCA_TAPRIO_ATTR_SCHED_BASE_TIME, TCA_TAPRIO_ATTR_SCHED_CYCLE_TIME,
      TCA_TAPRIO_ATTR_SCHED_CYCLE_TIME_EXTENSION, TCA_TAPRIO_ATTR_TC_ENTRY,
      TCA_TAPRIO_ATTR_SCHED_ENTRY_LIST]
    norm_num
  · simp only [TcQdiscTaprioOption.parse, NlaRaw.kind,
      TCA_TAPRIO_ATTR_SCHED_CLOCKID, TCA_TAPRIO_ATTR_FLAGS,
      TCA_TAPRIO_ATTR_PRIOMAP, TCA_TAPRIO_ATTR_TXTIME_DELAY,
      TCA_TAPRIO_ATTR_SCHED_BASE_TIME, TCA_TAPRIO_ATTR_SCHED_CYCLE_TIME,
      TCA_TAPRIO_ATTR_SCHED_CYCLE_TIME_EXTENSION, TCA_TAPRIO_ATTR_TC_ENTRY]
    norm_num
    rw [nlasFold_nil]
    rfl
  · simp only [TcQdiscTaprioOption.parse, NlaRaw.kind,
      TCA_TAPRIO_ATTR_SCHED_CLOCKID, TCA_TAPRIO_ATTR_FLAGS,
      TCA_TAPRIO_ATTR_PRIOMAP, TCA_TAPRIO_ATTR_TXTIME_DELAY,
      TCA_TAPRIO_ATTR_SCHED_BASE_TIME, TCA_TAPRIO_ATTR_SCHED_CYCLE_TIME,
      TCA_TAPRIO_ATTR_SCHED_CYCLE_TIME_EXTENSION, TCA_TAPRIO_ATTR_TC_ENTRY,
      TCA_TAPRIO_ATTR_SCHED_ENTRY_LIST]
    norm_num
    rw [nlasFold_nil]
    rfl
  · simp only [TcQdiscTaprioOption.parse, NlaRaw.kind,
      TCA_TAPRIO_ATTR_SCHED_CLOCKID, TCA_TAPRIO_ATTR_FLAGS,
      TCA_TAPRIO_ATTR_PRIOMAP, TCA_TAPRIO_ATTR_TXTIME_DELAY,
      TCA_TAPRIO_ATTR_SCHED_BASE_TIME, TCA_TAPRIO_ATTR_SCHED_CYCLE_TIME,
      TCA_TAPRIO_ATTR_SCHED_CYCLE_TIME_EXTENSION, TCA_TAPRIO_ATTR_TC_ENTRY,
      TCA_TAPRIO_ATTR_SCHED_ENTRY_LIST]
    norm_num
    rw [nlasFold_nil]
    rfl
  · intro r hr
    simp only [recognizedTopKinds, List.mem_cons,
      List.not_mem_nil, or_false] at hr
    obtain h | h | h | h | h | h | h | h | h := hr <;>
      simp only [TcQdiscTaprioOption.parse, NlaRaw.kind, h,
        TCA_TAPRIO_ATTR_SCHED_CLOCKID, TCA_TAPRIO_ATTR_FLAGS,
        TCA_TAPRIO_ATTR_PRIOMAP, TCA_TAPRIO_ATTR_TXTIME_DELAY,
        TCA_TAPRIO_ATTR_SCHED_BASE_TIME, TCA_TAPRIO_ATTR_SCHED_CYCLE_TIME,
        TCA_TAPRIO_ATTR_SCHED_CYCLE_TIME_EXTENSION,
        TCA_TAPRIO_ATTR_TC_ENTRY, TCA_TAPRIO_ATTR_SCHED_ENTRY_LIST] <;>
      norm_num <;>
      exact isOtherResult_map _ _ (fun x => rfl)

theorem claim_c10_masked_dispatch_witness :
    (32773 : Nat) % 16384 ∈ recognizedTopKinds
    ∧ isOtherResult (TcQdiscTaprioOption.parse ⟨8, 32773, [0, 0, 0, 0]⟩)
      = false :=
  ⟨by decide, claim_c10_masked_dispatch.2.2.2.2.2 ⟨8, 32773, [0, 0, 0, 0]⟩
    (by decide)⟩

end Taprio
